import Mathlib

/-!
Verification of the TAT (turn-around-time) monitoring core of the valmo-ops
browser extension.

The JavaScript source is shallowly embedded:
* JS numbers that only ever hold integers (epoch milliseconds, counts,
  SLA hours) are modelled as `Int` / `Nat`;
* JS numbers that hold fractions (elapsed hours, averages, rates) are
  modelled as `ℚ` (exact arithmetic in place of IEEE doubles; every value
  exercised here is far from any double-rounding boundary);
* `Math.round` is modelled as `jsRound`, `x.toFixed`-style one-decimal
  rounding (`Math.round(x*10)/10`) as `roundTenth`;
* `new Date(y, m, d, h, mi, s).getTime()` is modelled as `mkTimeMs`, a pure
  proleptic-Gregorian conversion (UTC; the source runs in an unspecified
  local zone, and all properties below are zone-independent) for in-range
  calendar fields, which is how every call site uses it;
* the `chrome.storage` objects `tatTickets` (snapshot map) and `tatHistory`
  (disposition log) are modelled as an association list and a plain list,
  threaded explicitly through the functions that read and write them;
* `Date.now()` is an explicit `now : Int` argument.

Namespaces mirror the source files:
`TatTrackerBG`  = tat-tracker-background.js (the class TATTrackerBackground),
`TicketTracker` = unified-extension/tat-system/ticket-tracker.js,
`KaptureBG`     = the unified service worker (parseKaptureDate),
`TATAnalytics`  = tat-analytics.js (the class TATAnalytics).
-/

/-- JS `String.prototype.toLowerCase` (ASCII case mapping), computed on the
character list so that it reduces by evaluation. -/
def toLowerStr (s : String) : String := String.mk (s.data.map Char.toLower)

/-- JS `String.prototype.includes` on explicit character lists:
`containsSub hay needle` is true iff `needle` occurs contiguously in `hay`. -/
def containsSub : List Char → List Char → Bool
  | [], needle => needle.isEmpty
  | c :: rest, needle => needle.isPrefixOf (c :: rest) || containsSub rest needle

/-- JS `s.includes(sub)`. -/
def strIncludes (s sub : String) : Bool := containsSub s.data sub.data

/-- Value of a list of decimal digit characters. -/
def digitsVal (cs : List Char) : Int :=
  Int.ofNat (cs.foldl (fun acc c => acc * 10 + (c.toNat - 48)) 0)

/-- All characters are decimal digits. -/
def allDigits (cs : List Char) : Bool := cs.all (fun c => c.isDigit)

/-- The six numeric fields captured by the source regex
`(\d{4})-(\d{2})-(\d{2}) (\d{2}):(\d{2}):(\d{2})`. -/
structure DateFields where
  y : Int
  mo : Int
  d : Int
  hh : Int
  mm : Int
  ss : Int
deriving DecidableEq

/-- Fixed-width match of the pattern `DDDD-DD-DD DD:DD:DD` at the head of a
character list (the source regex has only fixed-width pieces, so regex
matching at a position is exactly this test). -/
def matchPattern : List Char → Option DateFields
  | y1 :: y2 :: y3 :: y4 :: q1 :: n1 :: n2 :: q2 :: e1 :: e2 :: q3 ::
      h1 :: h2 :: q4 :: i1 :: i2 :: q5 :: s1 :: s2 :: _ =>
    if allDigits [y1, y2, y3, y4, n1, n2, e1, e2, h1, h2, i1, i2, s1, s2]
        && (q1 == '-') && (q2 == '-') && (q3 == ' ') && (q4 == ':') && (q5 == ':') then
      some ⟨digitsVal [y1, y2, y3, y4], digitsVal [n1, n2], digitsVal [e1, e2],
            digitsVal [h1, h2], digitsVal [i1, i2], digitsVal [s1, s2]⟩
    else none
  | _ => none

/-- JS `str.match(re)` for the fixed-width date regex: leftmost match wins. -/
def scanDate : List Char → Option DateFields
  | [] => none
  | c :: rest =>
    match matchPattern (c :: rest) with
    | some f => some f
    | none => scanDate rest

/-- Days from 1970-01-01 to the Gregorian date `y-m-d` (1-based month),
Hinnant's civil-from-days algorithm; valid for the in-range calendar fields
used by every call site. -/
def daysFromCivil (y m d : Int) : Int :=
  let y2 := if m ≤ 2 then y - 1 else y
  let era := (if 0 ≤ y2 then y2 else y2 - 399) / 400
  let yoe := y2 - era * 400
  let mp := (m + 9) % 12
  let doy := (153 * mp + 2) / 5 + d - 1
  let doe := yoe * 365 + yoe / 4 - yoe / 100 + doy
  era * 146097 + doe - 719468

/-- `new Date(year, month0, day, h, mi, s).getTime()` for in-range fields:
epoch milliseconds; `month0` is the zero-based month of the JS Date
constructor. -/
def mkTimeMs (year month0 day hours minutes seconds : Int) : Int :=
  (daysFromCivil year (month0 + 1) day * 86400
    + hours * 3600 + minutes * 60 + seconds) * 1000

/-- Reference definition, from the spec's words: the epoch-millisecond
instant of the calendar date-time `year-month-day hours:minutes:seconds`
with the usual 1-based month. Used to state what a decoded value denotes. -/
def epochMillisOfUTC (year month day hours minutes seconds : Int) : Int :=
  (daysFromCivil year month day * 86400
    + hours * 3600 + minutes * 60 + seconds) * 1000

/-- JS `Math.round`: round half up. -/
def jsRound (q : ℚ) : Int := Int.floor (q + 1 / 2)

/-- The source's one-decimal rounding `Math.round(x * 10) / 10`. -/
def roundTenth (q : ℚ) : ℚ := (jsRound (q * 10) : ℚ) / 10

/-- Urgency descriptor returned by `calculateUrgency`. -/
structure Urgency where
  status : String
  color : String
  icon : String
  sortOrder : Nat
deriving DecidableEq

/-- `calculateUrgency(tatHours, elapsedHours)`; the identical function occurs
in tat-tracker-background.js, ticket-tracker.js and the unified service
worker. -/
def calculateUrgency (tatHours elapsedHours : ℚ) : Urgency :=
  let remaining := tatHours - elapsedHours
  let threshold := tatHours * (0.25 : ℚ)
  if remaining < 0 then ⟨"OVERDUE", "red", "🔴", 1⟩
  else if remaining < threshold then ⟨"DUE_SOON", "yellow", "🟡", 2⟩
  else ⟨"ON_TRACK", "green", "🟢", 3⟩

/-- SOP classification result `{category, tat}`. -/
structure SOPMatch where
  category : String
  tat : Nat
deriving DecidableEq

/-- One entry of the Kapture per-ticket history. -/
structure HistoryEvent where
  action : String
  createDate : String
  remark : String
  substatus : String
deriving DecidableEq

/-- The fields of a fetched pending ticket used by the TAT pipeline. -/
structure Ticket where
  id : String
  ticketId : String
  taskTitle : String
  date : String
  email : String
  status : String
  substatus : String
  substatusName : String
  ticketURL : String
deriving DecidableEq

/-- The per-ticket snapshot built by `processTicketHistory` and stored in
`tatTickets` (keyed by `ticketId`). -/
structure TicketRecord where
  id : String
  ticketId : String
  subject : String
  customerEmail : String
  status : String
  substatus : String
  substatusName : String
  assignedTo : String
  assignedTime : Int
  assignedTimeStr : String
  sopCategory : String
  tatHours : Nat
  elapsedHours : ℚ
  remainingHours : ℚ
  urgencyLevel : String
  urgencyColor : String
  urgencyIcon : String
  isEscalated : Bool
  escalationCount : Nat
  lastEscalatedTime : Option Int
  ticketURL : String
  lastUpdate : Int
deriving DecidableEq

/-- One disposition (close/resolve) record of the append-only `tatHistory`
log. -/
structure DispositionRecord where
  ticketId : String
  subject : String
  category : String
  agent : String
  assignedTime : Int
  disposedTime : Int
  tatHours : ℚ
  dispositionType : String
  isEscalated : Bool
  wasOverdue : Bool
deriving DecidableEq

/-- Agent rollup returned by `getAgentStats`. The source returns an object
without the `overdueRate` key on the zero-record branch, so that field is
an `Option`. -/
structure AgentStats where
  agent : String
  totalTickets : Nat
  resolved : Nat
  escalated : Nat
  escalationRate : Int
  avgTAT : ℚ
  overdueCount : Nat
  overdueRate : Option Int
deriving DecidableEq

namespace TicketTracker

/-- `matchSOPCategory` of ticket-tracker.js (lines 180-224): case-insensitive
substring match over the ordered keyword table, first rule wins; `!subject`
(here: the empty string) falls to the General default. In the first rule,
JS `&&` binds tighter than `||`, so the shipment clause is one disjunct. -/
def matchSOPCategory (subject : String) : SOPMatch :=
  if subject = "" then ⟨"General", 48⟩
  else
    let lower := toLowerStr subject
    if strIncludes lower "shortage" || strIncludes lower "loss"
        || strIncludes lower "debit" || strIncludes lower "hardstop"
        || (strIncludes lower "shipment"
            && (strIncludes lower "short" || strIncludes lower "missing")) then
      ⟨"Losses & Debits", 72⟩
    else if strIncludes lower "payment" || strIncludes lower "invoice"
        || strIncludes lower "payout" || strIncludes lower "gst"
        || strIncludes lower "pending sign" then
      if strIncludes lower "not received" || strIncludes lower "pending" then
        ⟨"Payments", 12⟩
      else ⟨"Payments", 72⟩
    else if strIncludes lower "cod" || strIncludes lower "deposit"
        || strIncludes lower "cash" || strIncludes lower "pendency" then
      ⟨"COD", 24⟩
    else if strIncludes lower "load" || strIncludes lower "volume"
        || strIncludes lower "manifest" || strIncludes lower "planning" then
      ⟨"Orders & Planning", 12⟩
    else if strIncludes lower "cms" || strIncludes lower "log10"
        || strIncludes lower "system" || strIncludes lower "tool"
        || strIncludes lower "bagging" || strIncludes lower "inactive" then
      ⟨"Tech Issues", 24⟩
    else ⟨"General", 48⟩

end TicketTracker

/-- The fixed category set of the classifier. -/
def sopCategories : List String :=
  ["Losses & Debits", "Payments", "COD", "Orders & Planning", "Tech Issues", "General"]

namespace TatTrackerBG

/-- `matchSOPCategory` of tat-tracker-background.js (lines 260-296); same
table shape as the ticket-tracker version but with fewer keywords. -/
def matchSOPCategory (subject : String) : SOPMatch :=
  if subject = "" then ⟨"General", 48⟩
  else
    let lower := toLowerStr subject
    if strIncludes lower "shortage" || strIncludes lower "loss"
        || strIncludes lower "debit" || strIncludes lower "hardstop" then
      ⟨"Losses & Debits", 72⟩
    else if strIncludes lower "payment" || strIncludes lower "invoice"
        || strIncludes lower "payout" || strIncludes lower "gst" then
      if strIncludes lower "not received" || strIncludes lower "pending" then
        ⟨"Payments", 12⟩
      else ⟨"Payments", 72⟩
    else if strIncludes lower "cod" || strIncludes lower "deposit"
        || strIncludes lower "cash" then
      ⟨"COD", 24⟩
    else if strIncludes lower "load" || strIncludes lower "volume"
        || strIncludes lower "manifest" then
      ⟨"Orders & Planning", 12⟩
    else if strIncludes lower "cms" || strIncludes lower "log10"
        || strIncludes lower "system" then
      ⟨"Tech Issues", 24⟩
    else ⟨"General", 48⟩

/-- `parseDate` (lines 249-255): regex-extract `YYYY-MM-DD HH:MM:SS` and
build a Date with zero-based month; on no match, `Date.now()` (`now`). -/
def parseDate (now : Int) (dateStr : String) : Int :=
  match scanDate dateStr.data with
  | some f => mkTimeMs f.y (f.mo - 1) f.d f.hh f.mm f.ss
  | none => now

/-- `findLatestAssignment` (lines 223-231): filter to MANUAL ASSIGNED events
and return the last element of the filtered list (delivery order), or null. -/
def findLatestAssignment (history : List HistoryEvent) : Option HistoryEvent :=
  let assignments := history.filter (fun h => h.action == "MANUAL ASSIGNED")
  if assignments.length = 0 then none else assignments.getLast?

/-- Case-insensitive character match (JS regex `/.../i`). -/
def lowerEq (a b : Char) : Bool := a.toLower == b.toLower

/-- Case-insensitive prefix test of a pattern against a text. -/
def matchesAt : List Char → List Char → Bool
  | [], _ => true
  | _ :: _, [] => false
  | p :: ps, t :: ts => lowerEq p t && matchesAt ps ts

/-- Search for `/assigned to ([^<]+)/i`: at the leftmost position where the
literal part matches and the greedy capture is nonempty, return the capture
(the maximal run of non-`<` characters after the 12 literal characters). -/
def assignedToScan : List Char → Option (List Char)
  | [] => none
  | c :: rest =>
    if matchesAt ("assigned to ".data) (c :: rest) then
      let cap := ((c :: rest).drop 12).takeWhile (fun ch => !(ch == '<'))
      if cap.isEmpty then assignedToScan rest else some cap
    else assignedToScan rest

/-- JS `String.prototype.trim`: drop whitespace from both ends. -/
def trimChars (cs : List Char) : List Char :=
  ((cs.dropWhile Char.isWhitespace).reverse.dropWhile Char.isWhitespace).reverse

/-- `extractAgentEmail` (lines 237-244): capture of
`/assigned to ([^<]+)/i`, trimmed; `Unknown` if the regex does not match. -/
def extractAgentEmail (remark : String) : String :=
  match assignedToScan remark.data with
  | some cap => String.mk (trimChars cap)
  | none => "Unknown"

/-- The ticket-record construction of `processTicketHistory`
(lines 144-205), given the latest MANUAL ASSIGNED event. -/
def buildTicketRecord (ticket : Ticket) (history : List HistoryEvent)
    (latestAssignment : HistoryEvent) (now : Int) : TicketRecord :=
  let assignedTime := parseDate now latestAssignment.createDate
  let elapsedHours : ℚ := ((now - assignedTime : Int) : ℚ) / (1000 * 60 * 60)
  let sopMatch := matchSOPCategory ticket.taskTitle
  let remainingHours : ℚ := (sopMatch.tat : ℚ) - elapsedHours
  let urgency := calculateUrgency (sopMatch.tat : ℚ) elapsedHours
  let agentEmail := extractAgentEmail latestAssignment.remark
  let escalations := history.filter (fun h => h.action == "DISPOSED" && h.substatus == "ETL")
  { id := ticket.id
    ticketId := ticket.ticketId
    subject := ticket.taskTitle
    customerEmail := ticket.email
    status := ticket.status
    substatus := ticket.substatus
    substatusName := ticket.substatusName
    assignedTo := agentEmail
    assignedTime := assignedTime
    assignedTimeStr := latestAssignment.createDate
    sopCategory := sopMatch.category
    tatHours := sopMatch.tat
    elapsedHours := roundTenth elapsedHours
    remainingHours := roundTenth remainingHours
    urgencyLevel := urgency.status
    urgencyColor := urgency.color
    urgencyIcon := urgency.icon
    isEscalated := decide (0 < escalations.length)
    escalationCount := escalations.length
    lastEscalatedTime := escalations.getLast?.map (fun e => parseDate now e.createDate)
    ticketURL := "https://valmostagging.kapturecrm.com" ++ ticket.ticketURL
    lastUpdate := now }

/-- `storeTicketRecord` (lines 317-343): `tatTickets[ticketId] = record`,
i.e. overwrite the existing key in place or append a new key. -/
def storeTicketRecord (tatTickets : List (String × TicketRecord))
    (ticketRecord : TicketRecord) : List (String × TicketRecord) :=
  if tatTickets.any (fun p => p.1 == ticketRecord.ticketId) then
    tatTickets.map (fun p => if p.1 == ticketRecord.ticketId then (p.1, ticketRecord) else p)
  else tatTickets ++ [(ticketRecord.ticketId, ticketRecord)]

/-- The per-ticket step of `processTicketHistory` (lines 132-210) after the
history fetch succeeded: reconcile the history and persist the snapshot, or
return with the store untouched when no MANUAL ASSIGNED event exists. -/
def processTicketHistory (tatTickets : List (String × TicketRecord))
    (ticket : Ticket) (history : List HistoryEvent) (now : Int) :
    List (String × TicketRecord) :=
  match findLatestAssignment history with
  | none => tatTickets
  | some latest => storeTicketRecord tatTickets (buildTicketRecord ticket history latest now)

/-- The `{assignedAt, agent, escalationCount}` reconciliation triple of
spec §4.4, as computed by `processTicketHistory` (lines 146, 157, 160-162,
178-179, 195). -/
def reconcile (now : Int) (history : List HistoryEvent) : Option (Int × String × Nat) :=
  (findLatestAssignment history).map (fun latest =>
    (parseDate now latest.createDate, extractAgentEmail latest.remark,
      (history.filter (fun h => h.action == "DISPOSED" && h.substatus == "ETL")).length))

end TatTrackerBG

namespace KaptureBG

/-- The dynamically-typed argument of `parseKaptureDate`: a JS object with
optional legacy calendar fields and optional `timestamp`, a string, a
number, or anything else (null, undefined, arrays, booleans — all of which
reach the final fallback in the source). -/
inductive RawDate where
  | obj (year month date hours minutes seconds timestamp : Option Int)
  | str (s : String)
  | num (n : Int)
  | other

/-- `parseKaptureDate` of the unified service worker (lines 235-272).
Objects with `year`/`month`/`date` keys decode with `year+1900` and the
zero-based month; `hours || 0` is `Option.getD 0`; a truthy `timestamp`
is seconds when below 10^10, else milliseconds; strings go through the
fixed-width regex; numbers disambiguate by the same magnitude test;
everything unparseable returns `Date.now()` (`now`). -/
def parseKaptureDate (now : Int) : RawDate → Int
  | .obj year month date hours minutes seconds timestamp =>
    match year, month, date with
    | some y, some mo, some d =>
      mkTimeMs (y + 1900) mo d (hours.getD 0) (minutes.getD 0) (seconds.getD 0)
    | _, _, _ =>
      match timestamp with
      | some t => if t ≠ 0 then (if t < 10000000000 then t * 1000 else t) else now
      | none => now
  | .str s =>
    match scanDate s.data with
    | some f => mkTimeMs f.y (f.mo - 1) f.d f.hh f.mm f.ss
    | none => now
  | .num n => if n < 10000000000 then n * 1000 else n
  | .other => now

end KaptureBG

namespace TATAnalytics

/-- `storeHistoricalRecord` (lines 55-67): push the record, then if the log
exceeds 1000 entries drop the oldest (`shift`). -/
def storeHistoricalRecord (tatHistory : List DispositionRecord)
    (record : DispositionRecord) : List DispositionRecord :=
  let pushed := tatHistory ++ [record]
  if 1000 < pushed.length then pushed.tail else pushed

/-- JS `tatTickets[ticketId]` lookup. -/
def getTicket (tatTickets : List (String × TicketRecord)) (ticketId : String) :
    Option TicketRecord :=
  (tatTickets.find? (fun p => p.1 == ticketId)).map (fun p => p.2)

/-- `recordDisposition` (lines 20-50): look up the snapshot; if absent,
warn and leave the log unchanged; otherwise build the disposition record
(escalated iff the disposition type is ETL, overdue iff the exact TAT
exceeds the SLA hours) and append it to the bounded log. -/
def recordDisposition (tatTickets : List (String × TicketRecord))
    (tatHistory : List DispositionRecord) (ticketId disposition : String)
    (now : Int) : List DispositionRecord :=
  match getTicket tatTickets ticketId with
  | none => tatHistory
  | some ticket =>
    let tatHours : ℚ := ((now - ticket.assignedTime : Int) : ℚ) / (1000 * 60 * 60)
    let dispositionRecord : DispositionRecord :=
      { ticketId := ticket.ticketId
        subject := ticket.subject
        category := ticket.sopCategory
        agent := ticket.assignedTo
        assignedTime := ticket.assignedTime
        disposedTime := now
        tatHours := roundTenth tatHours
        dispositionType := disposition
        isEscalated := disposition == "ETL"
        wasOverdue := decide ((ticket.tatHours : ℚ) < tatHours) }
    storeHistoricalRecord tatHistory dispositionRecord

/-- `getAgentStats` (lines 72-105): pure fold over the log restricted to
one agent. The zero-record branch of the source returns an object without
the `overdueRate` key, hence `none` there. -/
def getAgentStats (tatHistory : List DispositionRecord) (agentEmail : String) :
    AgentStats :=
  let agentRecords := tatHistory.filter (fun r => r.agent == agentEmail)
  if agentRecords.length = 0 then
    { agent := agentEmail, totalTickets := 0, resolved := 0, escalated := 0,
      escalationRate := 0, avgTAT := 0, overdueCount := 0, overdueRate := none }
  else
    let resolved := (agentRecords.filter (fun r => r.dispositionType == "RESOLVED")).length
    let escalated := (agentRecords.filter (fun r => r.isEscalated)).length
    let overdueCount := (agentRecords.filter (fun r => r.wasOverdue)).length
    let avgTAT : ℚ :=
      agentRecords.foldl (fun sum r => sum + r.tatHours) 0 / (agentRecords.length : ℚ)
    { agent := agentEmail
      totalTickets := agentRecords.length
      resolved := resolved
      escalated := escalated
      escalationRate := jsRound ((escalated : ℚ) / (agentRecords.length : ℚ) * 100)
      avgTAT := roundTenth avgTAT
      overdueCount := overdueCount
      overdueRate := some (jsRound ((overdueCount : ℚ) / (agentRecords.length : ℚ) * 100)) }

end TATAnalytics

/-! Concrete fixtures used by witnesses and counterexamples. -/

/-- A pending ticket whose subject matches the Losses & Debits rule. -/
def tkt0 : Ticket :=
  ⟨"101", "T9", "Shortage claim", "2026-02-02 00:00:00", "a@b.com", "P", "OP", "Open", "/t/9"⟩

/-- History whose single MANUAL ASSIGNED event has an unparseable
timestamp, so `parseDate` falls back to `Date.now()`. -/
def histBadDate : List HistoryEvent :=
  [⟨"MANUAL ASSIGNED", "tomorrow", "assigned to Ravi", "P"⟩]

/-- History whose single MANUAL ASSIGNED event is at the epoch. -/
def histC9 : List HistoryEvent :=
  [⟨"MANUAL ASSIGNED", "1970-01-01 00:00:00", "assigned to Dev", "P"⟩]

/-- History with one MANUAL ASSIGNED event carrying a parseable timestamp. -/
def histGood : List HistoryEvent :=
  [⟨"MANUAL ASSIGNED", "2026-02-02 14:13:27", "assigned to Ravi", "P"⟩]

/-- History delivered newest-first: two MANUAL ASSIGNED events whose
delivery order is the reverse of their chronological order. -/
def histUnsorted : List HistoryEvent :=
  [⟨"MANUAL ASSIGNED", "2026-02-03 00:00:00", "assigned to Asha", "P"⟩,
   ⟨"MANUAL ASSIGNED", "2026-02-01 00:00:00", "assigned to Ravi", "P"⟩]

/-- History with no MANUAL ASSIGNED event at all. -/
def histNoAssign : List HistoryEvent :=
  [⟨"DISPOSED", "2026-02-01 00:00:00", "closed", "ETL"⟩,
   ⟨"CREATE", "2026-01-31 00:00:00", "created", "P"⟩]

/-- An arbitrary stored snapshot. -/
def sampleRecord : TicketRecord :=
  ⟨"1", "T1", "General question", "c@d.com", "P", "OP", "Open", "Agent X", 0,
    "1970-01-01 00:00:00", "General", 48, 0, 48, "ON_TRACK", "green", "🟢",
    false, 0, none, "https://valmostagging.kapturecrm.com/t/1", 0⟩

/-- A snapshot store holding `sampleRecord` under its ticket id. -/
def store0 : List (String × TicketRecord) := [("T1", sampleRecord)]

/-- Disposition records for agent A with TATs 10, 20, 30 and one
escalation (the ETL one). -/
def dispA1 : DispositionRecord :=
  ⟨"T1", "s1", "COD", "A", 0, 36000000, 10, "RESOLVED", false, false⟩

/-- Second record for agent A: the escalated one. -/
def dispA2 : DispositionRecord :=
  ⟨"T2", "s2", "COD", "A", 0, 72000000, 20, "ETL", true, false⟩

/-- Third record for agent A. -/
def dispA3 : DispositionRecord :=
  ⟨"T3", "s3", "COD", "A", 0, 108000000, 30, "RESOLVED", false, false⟩

/-- The three-record log of the agent-rollup example. -/
def exampleLog : List DispositionRecord := [dispA1, dispA2, dispA3]

/-- A full log of 1000 records. -/
def bigLog : List DispositionRecord := List.replicate 1000 dispA1

/-! Helper lemmas. -/

/-- An element returned by `getLast?` is a member of the list. -/
theorem mem_of_getLast_eq {α : Type _} {l : List α} {a : α} (h : l.getLast? = some a) :
    a ∈ l := by
  have hx : a ∈ l.getLast? := Option.mem_def.mpr h
  obtain ⟨hne, heq⟩ := List.mem_getLast?_eq_getLast hx
  subst heq
  exact List.getLast_mem hne

/-- `parseDate` does not depend on the clock when the string parses. -/
theorem parseDate_scan_some {s : String} {f : DateFields} (h : scanDate s.data = some f)
    (now : Int) :
    TatTrackerBG.parseDate now s = mkTimeMs f.y (f.mo - 1) f.d f.hh f.mm f.ss := by
  unfold TatTrackerBG.parseDate
  rw [h]

/-- The event selected by `findLatestAssignment` belongs to the history. -/
theorem findLatestAssignment_mem {history : List HistoryEvent} {e : HistoryEvent}
    (h : TatTrackerBG.findLatestAssignment history = some e) : e ∈ history := by
  simp only [TatTrackerBG.findLatestAssignment] at h
  split at h
  · exact absurd h (by simp)
  · exact (List.mem_filter.mp (mem_of_getLast_eq h)).1

/-- C2: the classifier is total — every string (including the empty one)
maps to a category of the fixed set with positive SLA hours; the table is
ordered with the first matching rule winning, so a subject hitting both the
rule-1 keywords (shortage/loss/debit/hardstop) and the rule-3 keywords
(cod/deposit/cash/pendency) resolves to rule 1's Losses & Debits with 72h;
empty and unmatched subjects give the General/48 default. -/
theorem matchSOPCategory_total_first_match :
    (∀ s : String, (TicketTracker.matchSOPCategory s).category ∈ sopCategories
        ∧ 0 < (TicketTracker.matchSOPCategory s).tat)
    ∧ (∀ s : String,
        (strIncludes (toLowerStr s) "shortage" = true ∨ strIncludes (toLowerStr s) "loss" = true
          ∨ strIncludes (toLowerStr s) "debit" = true
          ∨ strIncludes (toLowerStr s) "hardstop" = true) →
        (strIncludes (toLowerStr s) "cod" = true ∨ strIncludes (toLowerStr s) "deposit" = true
          ∨ strIncludes (toLowerStr s) "cash" = true
          ∨ strIncludes (toLowerStr s) "pendency" = true) →
        TicketTracker.matchSOPCategory s = ⟨"Losses & Debits", 72⟩)
    ∧ TicketTracker.matchSOPCategory "" = ⟨"General", 48⟩
    ∧ TicketTracker.matchSOPCategory "hello world" = ⟨"General", 48⟩ := by
  refine ⟨?_, ?_, by decide, by decide⟩
  · intro s
    by_cases hs : s = ""
    · subst hs; decide
    · simp only [TicketTracker.matchSOPCategory]
      rw [if_neg hs]
      split_ifs <;> decide
  · intro s h1 _h3
    by_cases hs : s = ""
    · subst hs
      rcases h1 with h | h | h | h <;> exact absurd h (by decide)
    · simp only [TicketTracker.matchSOPCategory]
      rw [if_neg hs]
      rcases h1 with h | h | h | h <;> simp [h]

/-- Witness for C2: a subject hitting both rule-1 and rule-3 keywords
resolves to Losses & Debits. -/
theorem matchSOPCategory_total_first_match_witness :
    (strIncludes (toLowerStr "Shortage COD issue") "shortage" = true
      ∨ strIncludes (toLowerStr "Shortage COD issue") "loss" = true
      ∨ strIncludes (toLowerStr "Shortage COD issue") "debit" = true
      ∨ strIncludes (toLowerStr "Shortage COD issue") "hardstop" = true)
    ∧ TicketTracker.matchSOPCategory "Shortage COD issue" = ⟨"Losses & Debits", 72⟩ :=
  ⟨Or.inl (by decide),
    matchSOPCategory_total_first_match.2.1 "Shortage COD issue"
      (Or.inl (by decide)) (Or.inl (by decide))⟩

/-- C3: the urgency evaluator is total with the specified case analysis —
negative remaining time is OVERDUE (rank 1), nonnegative remaining time
strictly below the 25% threshold is DUE_SOON (rank 2), and at or above the
threshold ON_TRACK (rank 3); at (72, 54) the remaining 18 equals the
threshold and resolves to ON_TRACK, and (72, 73) is OVERDUE. -/
theorem calculateUrgency_cases :
    (∀ t e : ℚ,
        (t - e < 0 → calculateUrgency t e = ⟨"OVERDUE", "red", "🔴", 1⟩)
        ∧ (0 ≤ t - e → t - e < t * (0.25 : ℚ) →
            calculateUrgency t e = ⟨"DUE_SOON", "yellow", "🟡", 2⟩)
        ∧ (0 ≤ t - e → t * (0.25 : ℚ) ≤ t - e →
            calculateUrgency t e = ⟨"ON_TRACK", "green", "🟢", 3⟩))
    ∧ calculateUrgency 72 54 = ⟨"ON_TRACK", "green", "🟢", 3⟩
    ∧ calculateUrgency 72 73 = ⟨"OVERDUE", "red", "🔴", 1⟩ := by
  refine ⟨fun t e => ⟨?_, ?_, ?_⟩, ?_, ?_⟩
  · intro h
    simp only [calculateUrgency, if_pos h]
  · intro h0 h1
    simp only [calculateUrgency, if_neg (not_lt.mpr h0), if_pos h1]
  · intro h0 h2
    simp only [calculateUrgency, if_neg (not_lt.mpr h0), if_neg (not_lt.mpr h2)]
  · norm_num [calculateUrgency]
  · norm_num [calculateUrgency]

/-- Witness for C3: a strictly negative remaining time is OVERDUE. -/
theorem calculateUrgency_cases_witness :
    ((0 : ℚ) - 1 < 0) ∧ calculateUrgency 0 1 = ⟨"OVERDUE", "red", "🔴", 1⟩ :=
  ⟨by simp, (calculateUrgency_cases.1 0 1).1 (by simp)⟩

/-- C4: the date normalizer is total and implements the specified case
analysis — the legacy object with year 126, zero-based month 1, decodes via
year+1900 to the calendar instant 2026-02-02 14:13:27; numeric epochs below
10,000,000,000 are multiplied by 1000 (seconds) and larger ones kept
(milliseconds), both directly and inside a timestamp-carrying object; the
fixed-width string format parses to the denoted instant; and every
unparseable input returns the current time. -/
theorem parseKaptureDate_spec :
    (∀ now : Int,
        KaptureBG.parseKaptureDate now
            (.obj (some 126) (some 1) (some 2) (some 14) (some 13) (some 27) none)
          = epochMillisOfUTC 2026 2 2 14 13 27)
    ∧ (∀ now n : Int, n < 10000000000 →
        KaptureBG.parseKaptureDate now (.num n) = n * 1000)
    ∧ (∀ now n : Int, 10000000000 ≤ n →
        KaptureBG.parseKaptureDate now (.num n) = n)
    ∧ (∀ now : Int,
        KaptureBG.parseKaptureDate now (.num 1700000000) = 1700000000 * 1000
        ∧ KaptureBG.parseKaptureDate now (.num 1700000000000) = 1700000000000)
    ∧ (∀ now t : Int, t ≠ 0 → t < 10000000000 →
        KaptureBG.parseKaptureDate now (.obj none none none none none none (some t))
          = t * 1000)
    ∧ (∀ now t : Int, t ≠ 0 → 10000000000 ≤ t →
        KaptureBG.parseKaptureDate now (.obj none none none none none none (some t)) = t)
    ∧ (∀ now : Int,
        KaptureBG.parseKaptureDate now (.str "2026-02-02 14:13:27")
          = epochMillisOfUTC 2026 2 2 14 13 27)
    ∧ (∀ (now : Int) (s : String), scanDate s.data = none →
        KaptureBG.parseKaptureDate now (.str s) = now)
    ∧ (∀ now : Int, KaptureBG.parseKaptureDate now .other = now) := by
  refine ⟨fun now => by rfl, ?_, ?_, fun now => ⟨by rfl, by rfl⟩, ?_, ?_,
    fun now => by rfl, ?_, fun now => by rfl⟩
  · intro now n h
    simp only [KaptureBG.parseKaptureDate, if_pos h]
  · intro now n h
    simp only [KaptureBG.parseKaptureDate, if_neg (not_lt.mpr h)]
  · intro now t ht h
    simp only [KaptureBG.parseKaptureDate, if_pos ht, if_pos h]
  · intro now t ht h
    simp only [KaptureBG.parseKaptureDate, if_pos ht, if_neg (not_lt.mpr h)]
  · intro now s h
    simp only [KaptureBG.parseKaptureDate]
    rw [h]

/-- Witness for C4: the ten-digit epoch 1700000000 is below the threshold
and is normalized as seconds. -/
theorem parseKaptureDate_spec_witness :
    ((1700000000 : Int) < 10000000000)
    ∧ KaptureBG.parseKaptureDate 0 (.num 1700000000) = 1700000000 * 1000 :=
  ⟨by decide, parseKaptureDate_spec.2.1 0 1700000000 (by decide)⟩

/-- C5 counterexample: reconciling the same history twice is not always
idempotent — with an unparseable assignment timestamp, `parseDate` falls
back to the clock, so two runs at different instants disagree on
`assignedAt`. -/
theorem reconcile_not_idempotent_cex :
    TatTrackerBG.reconcile 0 histBadDate ≠ TatTrackerBG.reconcile 3600000 histBadDate := by
  decide

/-- C5 amended: reconciliation is idempotent on histories whose event
timestamps all parse — two runs at arbitrary clock instants produce the
same `{assignedAt, agent, escalationCount}` triple. -/
theorem reconcile_idempotent_of_parseable :
    ∀ (history : List HistoryEvent) (now1 now2 : Int),
      (∀ e ∈ history, (scanDate e.createDate.data).isSome = true) →
      TatTrackerBG.reconcile now1 history = TatTrackerBG.reconcile now2 history := by
  intro h n1 n2 hp
  unfold TatTrackerBG.reconcile
  cases hfl : TatTrackerBG.findLatestAssignment h with
  | none => rfl
  | some e =>
    have he := findLatestAssignment_mem hfl
    obtain ⟨f, hf⟩ := Option.isSome_iff_exists.mp (hp e he)
    simp [parseDate_scan_some hf]

/-- Witness for C5: on a history with a parseable assignment timestamp,
runs at two different instants agree. -/
theorem reconcile_idempotent_of_parseable_witness :
    (∀ e ∈ histGood, (scanDate e.createDate.data).isSome = true)
    ∧ TatTrackerBG.reconcile 0 histGood = TatTrackerBG.reconcile 7200000 histGood :=
  ⟨by decide, reconcile_idempotent_of_parseable histGood 0 7200000 (by decide)⟩

/-- C6: when a history contains no MANUAL ASSIGNED event, the poll step for
that ticket writes nothing — the snapshot store is returned unchanged, so a
prior snapshot is untouched and no new snapshot is created. -/
theorem processTicketHistory_no_assignment_skip :
    ∀ (tatTickets : List (String × TicketRecord)) (ticket : Ticket)
      (history : List HistoryEvent) (now : Int),
      history.filter (fun h => h.action == "MANUAL ASSIGNED") = [] →
      TatTrackerBG.processTicketHistory tatTickets ticket history now = tatTickets := by
  intro store t h now hf
  have hfl : TatTrackerBG.findLatestAssignment h = none := by
    simp [TatTrackerBG.findLatestAssignment, hf]
  simp [TatTrackerBG.processTicketHistory, hfl]

/-- Witness for C6: a history with only DISPOSED/CREATE events leaves a
nonempty store exactly as it was. -/
theorem processTicketHistory_no_assignment_skip_witness :
    histNoAssign.filter (fun h => h.action == "MANUAL ASSIGNED") = []
    ∧ TatTrackerBG.processTicketHistory store0 tkt0 histNoAssign 5 = store0 :=
  ⟨by decide, processTicketHistory_no_assignment_skip store0 tkt0 histNoAssign 5 (by decide)⟩

/-- C7: the disposition log is bounded and append-only — the stored log is
always a suffix of the old log with the new record appended (so no existing
record is rewritten), an append below capacity keeps everything, and an
append to a log holding exactly 1000 records evicts exactly the oldest. -/
theorem storeHistoricalRecord_bounded_append :
    ∀ (log : List DispositionRecord) (r : DispositionRecord),
      TATAnalytics.storeHistoricalRecord log r <:+ log ++ [r]
      ∧ (log.length < 1000 → TATAnalytics.storeHistoricalRecord log r = log ++ [r])
      ∧ (log.length = 1000 →
          TATAnalytics.storeHistoricalRecord log r = log.tail ++ [r]) := by
  intro log r
  refine ⟨?_, ?_, ?_⟩
  · simp only [TATAnalytics.storeHistoricalRecord]
    split
    · exact List.tail_suffix _
    · exact List.suffix_refl _
  · intro h
    simp only [TATAnalytics.storeHistoricalRecord]
    rw [if_neg]
    simp only [List.length_append, List.length_singleton]
    omega
  · intro h
    simp only [TATAnalytics.storeHistoricalRecord]
    rw [if_pos]
    · cases log with
      | nil => simp at h
      | cons a t => simp
    · simp only [List.length_append, List.length_singleton]
      omega

/-- Witness for C7: appending to a log of exactly 1000 records drops
exactly the oldest one. -/
theorem storeHistoricalRecord_bounded_append_witness :
    bigLog.length = 1000
    ∧ TATAnalytics.storeHistoricalRecord bigLog dispA2 = bigLog.tail ++ [dispA2] :=
  ⟨by simp only [bigLog, List.length_replicate],
    (storeHistoricalRecord_bounded_append bigLog dispA2).2.2
      (by simp only [bigLog, List.length_replicate])⟩

/-- The running-sum fold of `getAgentStats` equals the list sum. -/
theorem foldl_tatHours_eq_sum :
    ∀ (l : List DispositionRecord) (init : ℚ),
      l.foldl (fun sum r => sum + r.tatHours) init
        = init + (l.map (fun r => r.tatHours)).sum := by
  intro l
  induction l with
  | nil => intro init; simp
  | cons a t ih =>
    intro init
    simp only [List.foldl_cons, List.map_cons, List.sum_cons, ih, add_assoc]

/-- C8 counterexample: an agent with zero records does not get an all-zero
stats record — the source's zero-record branch omits the `overdueRate`
field entirely (it is undefined, not 0). -/
theorem getAgentStats_empty_overdueRate_cex :
    (TATAnalytics.getAgentStats [] "A").overdueRate = none
    ∧ (TATAnalytics.getAgentStats [] "A").overdueRate ≠ some 0 :=
  ⟨rfl, by decide⟩

/-- C8 amended: `getAgentStats` is a pure fold over the log restricted to
the agent (restricting first changes nothing); with records of TATs
10/20/30 and one escalation the rollup gives totalTickets 3, avgTAT 20 and
escalationRate 33; a zero-record agent gets a record whose present fields
are all zero but whose `overdueRate` is absent (`none`) rather than zero;
and in general the rollup is the count, the one-decimal-rounded mean of
`tatHours`, and the rounded escalated percentage. -/
theorem getAgentStats_rollup :
    (∀ (log : List DispositionRecord) (agent : String),
        TATAnalytics.getAgentStats log agent
          = TATAnalytics.getAgentStats (log.filter (fun r => r.agent == agent)) agent)
    ∧ (∀ agent : String,
        TATAnalytics.getAgentStats [] agent = ⟨agent, 0, 0, 0, 0, 0, 0, none⟩)
    ∧ ((TATAnalytics.getAgentStats exampleLog "A").totalTickets = 3
        ∧ (TATAnalytics.getAgentStats exampleLog "A").avgTAT = 20
        ∧ (TATAnalytics.getAgentStats exampleLog "A").escalationRate = 33)
    ∧ (∀ (log : List DispositionRecord) (agent : String),
        (log.filter (fun r => r.agent == agent)).length ≠ 0 →
        (TATAnalytics.getAgentStats log agent).totalTickets
            = (log.filter (fun r => r.agent == agent)).length
        ∧ (TATAnalytics.getAgentStats log agent).avgTAT
            = roundTenth
                (((log.filter (fun r => r.agent == agent)).map (fun r => r.tatHours)).sum
                  / ((log.filter (fun r => r.agent == agent)).length : ℚ))
        ∧ (TATAnalytics.getAgentStats log agent).escalationRate
            = jsRound
                ((((log.filter (fun r => r.agent == agent)).filter
                      (fun r => r.isEscalated)).length : ℚ)
                  / ((log.filter (fun r => r.agent == agent)).length : ℚ) * 100)) := by
  refine ⟨?_, fun agent => rfl, ?_, ?_⟩
  · intro log agent
    simp only [TATAnalytics.getAgentStats, List.filter_filter, Bool.and_self]
  · have hf : exampleLog.filter (fun r => r.agent == "A") = exampleLog := rfl
    have hlen : exampleLog.length = 3 := rfl
    have hesc : (exampleLog.filter (fun r => r.isEscalated)).length = 1 := rfl
    have hfold : exampleLog.foldl (fun sum r => sum + r.tatHours) 0 = 60 := by
      norm_num [exampleLog, dispA1, dispA2, dispA3]
    refine ⟨?_, ?_, ?_⟩ <;>
      simp only [TATAnalytics.getAgentStats, hf, hlen, hesc, hfold] <;>
      norm_num [roundTenth, jsRound]
  · intro log agent h
    simp only [TATAnalytics.getAgentStats, if_neg h]
    refine ⟨by trivial, ?_, by trivial⟩
    simp only [foldl_tatHours_eq_sum, zero_add]

/-- Witness for C8: the general rollup formulas applied to the nonempty
example log. -/
theorem getAgentStats_rollup_witness :
    (exampleLog.filter (fun r => r.agent == "A")).length ≠ 0
    ∧ (TATAnalytics.getAgentStats exampleLog "A").totalTickets
        = (exampleLog.filter (fun r => r.agent == "A")).length :=
  ⟨by decide, (getAgentStats_rollup.2.2.2 exampleLog "A" (by decide)).1⟩

/-- C9 counterexample: the persisted snapshot's urgency is computed from
the exact elapsed hours before rounding, so it is not a function of the
stored (rounded) `elapsedHours` field — at an exact elapsed time of 54.02h
against a 72h SLA the stored record says DUE_SOON with stored
elapsedHours 54, while the evaluator on the stored fields (72, 54) says
ON_TRACK. -/
theorem urgencyLevel_stored_fields_cex :
    (TatTrackerBG.processTicketHistory [] tkt0 histC9 194472000).map
        (fun p => (p.2.urgencyLevel, p.2.tatHours, p.2.elapsedHours))
      = [("DUE_SOON", (72 : Nat), (54 : ℚ))]
    ∧ (calculateUrgency ((72 : Nat) : ℚ) 54).status = "ON_TRACK" := by
  constructor
  · have hl : TatTrackerBG.findLatestAssignment histC9 =
        some ⟨"MANUAL ASSIGNED", "1970-01-01 00:00:00", "assigned to Dev", "P"⟩ := by decide
    have hp : TatTrackerBG.parseDate 194472000 "1970-01-01 00:00:00" = 0 := by decide
    have hm : TatTrackerBG.matchSOPCategory tkt0.taskTitle = ⟨"Losses & Debits", 72⟩ := by
      decide
    simp only [TatTrackerBG.processTicketHistory, hl, TatTrackerBG.storeTicketRecord,
      TatTrackerBG.buildTicketRecord, hp, hm, List.any_nil, Bool.false_eq_true, if_false,
      List.nil_append, List.map_cons, List.map_nil]
    norm_num [calculateUrgency, roundTenth, jsRound]
  · norm_num [calculateUrgency]

/-- C9 amended: the stored `urgencyLevel` is a pure function of the
snapshot's stored `tatHours`, `lastUpdate` and `assignedTime` fields — it
equals the evaluator applied to `tatHours` and the exact elapsed hours
`(lastUpdate - assignedTime) / 1h` — and the persisted store receives
exactly the built record; it only fails to be a function of the rounded
`elapsedHours` field. -/
theorem urgencyLevel_pure_of_stored_times :
    (∀ (ticket : Ticket) (history : List HistoryEvent) (latest : HistoryEvent) (now : Int),
        (TatTrackerBG.buildTicketRecord ticket history latest now).urgencyLevel
          = (calculateUrgency
              ((TatTrackerBG.buildTicketRecord ticket history latest now).tatHours : ℚ)
              ((((TatTrackerBG.buildTicketRecord ticket history latest now).lastUpdate
                  - (TatTrackerBG.buildTicketRecord ticket history latest now).assignedTime
                  : Int) : ℚ) / (1000 * 60 * 60))).status)
    ∧ (∀ (tatTickets : List (String × TicketRecord)) (ticket : Ticket)
        (history : List HistoryEvent) (latest : HistoryEvent) (now : Int),
        TatTrackerBG.findLatestAssignment history = some latest →
        TatTrackerBG.processTicketHistory tatTickets ticket history now
          = TatTrackerBG.storeTicketRecord tatTickets
              (TatTrackerBG.buildTicketRecord ticket history latest now)) := by
  constructor
  · intro ticket history latest now
    rfl
  · intro store ticket history latest now hfl
    simp only [TatTrackerBG.processTicketHistory, hfl]

/-- Witness for C9 (amended): the persisted store for a history with an
assignment is the built record stored under its ticket id. -/
theorem urgencyLevel_pure_of_stored_times_witness :
    TatTrackerBG.findLatestAssignment histC9
        = some ⟨"MANUAL ASSIGNED", "1970-01-01 00:00:00", "assigned to Dev", "P"⟩
    ∧ TatTrackerBG.processTicketHistory [] tkt0 histC9 194472000
        = TatTrackerBG.storeTicketRecord []
            (TatTrackerBG.buildTicketRecord tkt0 histC9
              ⟨"MANUAL ASSIGNED", "1970-01-01 00:00:00", "assigned to Dev", "P"⟩ 194472000) :=
  ⟨by decide,
    urgencyLevel_pure_of_stored_times.2 [] tkt0 histC9
      ⟨"MANUAL ASSIGNED", "1970-01-01 00:00:00", "assigned to Dev", "P"⟩ 194472000
      (by decide)⟩

/-- The freshly appended record is always the last entry of the bounded
log. -/
theorem storeHistoricalRecord_getLast (log : List DispositionRecord)
    (r : DispositionRecord) :
    (TATAnalytics.storeHistoricalRecord log r).getLast? = some r := by
  simp only [TATAnalytics.storeHistoricalRecord]
  split
  case isTrue h =>
    cases log with
    | nil => simp at h
    | cons a t => simp [List.getLast?_concat]
  case isFalse h => simp [List.getLast?_concat]

/-- C10: a disposition record created by `recordDisposition` is marked
escalated exactly when the disposition type is the string ETL. -/
theorem recordDisposition_isEscalated_iff_ETL :
    ∀ (tatTickets : List (String × TicketRecord)) (tatHistory : List DispositionRecord)
      (ticketId disposition : String) (now : Int) (t : TicketRecord),
      TATAnalytics.getTicket tatTickets ticketId = some t →
      ((TATAnalytics.recordDisposition tatTickets tatHistory ticketId disposition now).getLast?).map
          DispositionRecord.isEscalated
        = some (disposition == "ETL") := by
  intro store log tid disp now t ht
  simp only [TATAnalytics.recordDisposition, ht, storeHistoricalRecord_getLast,
    Option.map_some']

/-- Witness for C10: disposing the sample ticket as RESOLVED yields a
record that is not escalated. -/
theorem recordDisposition_isEscalated_iff_ETL_witness :
    TATAnalytics.getTicket store0 "T1" = some sampleRecord
    ∧ ((TATAnalytics.recordDisposition store0 [] "T1" "RESOLVED" 3600000).getLast?).map
          DispositionRecord.isEscalated
        = some ("RESOLVED" == "ETL") :=
  ⟨rfl, recordDisposition_isEscalated_iff_ETL store0 [] "T1" "RESOLVED" 3600000
    sampleRecord rfl⟩

/-- `findLatestAssignment` returns nothing exactly when the history has no
MANUAL ASSIGNED event. -/
theorem findLatestAssignment_eq_none_iff (history : List HistoryEvent) :
    TatTrackerBG.findLatestAssignment history = none
      ↔ history.filter (fun h => h.action == "MANUAL ASSIGNED") = [] := by
  simp only [TatTrackerBG.findLatestAssignment]
  split
  case isTrue h => simp [List.length_eq_zero.mp h]
  case isFalse h => rw [List.getLast?_eq_none_iff]

/-- C1: `findLatestAssignment` performs no timestamp sort — on a history
delivered newest-first it returns the last MANUAL ASSIGNED event in
delivery order, whose parsed timestamp is strictly earlier than that of
another MANUAL ASSIGNED event in the same history; the NO_ASSIGNMENT half
of the claim does hold: reconciliation returns nothing exactly when the
history has no MANUAL ASSIGNED event. -/
theorem reconcile_unsorted_assignedAt_not_latest :
    (TatTrackerBG.reconcile 0 histUnsorted).map (fun x => x.1)
        = some (TatTrackerBG.parseDate 0 "2026-02-01 00:00:00")
    ∧ TatTrackerBG.parseDate 0 "2026-02-01 00:00:00"
        < TatTrackerBG.parseDate 0 "2026-02-03 00:00:00"
    ∧ (∀ (now : Int) (history : List HistoryEvent),
        TatTrackerBG.reconcile now history = none
          ↔ history.filter (fun h => h.action == "MANUAL ASSIGNED") = []) := by
  refine ⟨by decide, by decide, ?_⟩
  intro now history
  simp only [TatTrackerBG.reconcile, Option.map_eq_none']
  exact findLatestAssignment_eq_none_iff history
